import Mathlib

/-!
Shallow embedding of `src/packages/ariakit/src/menu/menu.ts`.

The file embeds the `useMenu` hook and the `Menu` component.  DOM events are
modelled as explicit records, store mutations (`state.hide()`,
`parentMenu.setActiveId(null)`) as an explicit effect list, and the two
lower-level hooks `useMenuList` and `useHovercard` (whose sources are not part
of this package's `src/` snapshot) as function parameters returning
`Except HostError (output × List Effect)`, so that fallibility and render-time
store effects of the delegated hooks stay observable.
-/

namespace Ariakit

/-- A DOM keyboard event as the `onKeyDown` handler observes it: the key
string, the `defaultPrevented` flag, and a counter of `stopPropagation()`
calls (so that "the handler called `stopPropagation`" is observable, not just
the final flag). -/
structure KeyboardEvent where
  key : String
  defaultPrevented : Bool
  stopPropagationCalls : Nat
deriving DecidableEq, Repr

/-- Embeds `event.stopPropagation()`. -/
def KeyboardEvent.stopPropagation (e : KeyboardEvent) : KeyboardEvent :=
  { e with stopPropagationCalls := e.stopPropagationCalls + 1 }

/-- A `BooleanOrCallback` option value: either a plain boolean or a function
of the event, as accepted by `hideOnEscape`. -/
abbrev BooleanOrCallback := Sum Bool (KeyboardEvent → Bool)

/-- A DOM element, abstracted to the one query `menu.ts` performs on it. -/
structure Element where
  focusWithin : Bool
deriving DecidableEq, Repr

/-- Modelled from the spec: `hasFocusWithin` lives in `ariakit-utils/focus`,
which is not under `src/`; the spec treats focus queries as browser focus/DOM
API calls, so the element carries the answer as a field. -/
def hasFocusWithin (el : Element) : Bool :=
  el.focusWithin

/-- The event handed to the `hideOnHoverOutside` callback; its contents are
never inspected by `menu.ts`, so it is an abstract token. -/
structure HoverEvent where
  eid : Nat
deriving DecidableEq, Repr

/-- A store mutation performed by code in `menu.ts`: `state.hide()` or
`parentMenu.setActiveId(value)`. -/
inductive Effect where
  | hide
  | setActiveId (value : Option String)
deriving DecidableEq, Repr

/-- A React ref, identified abstractly. -/
abbrev Ref := Nat

/-- An entry of `state.items`: its optional `id` and its `ref`. -/
structure ItemT where
  id : Option String
  ref : Ref
deriving DecidableEq, Repr

/-- The `initialFocus` field of the menu state. -/
inductive InitialFocus where
  | first
  | last
  | container
deriving DecidableEq, Repr

/-- The slice of the menu state store that `useMenu` reads.  `first` and
`last` hold the results of `state.first()` / `state.last()`, and
`disclosureRef` the current value of `state.disclosureRef`. -/
structure MenuState where
  initialFocus : InitialFocus
  items : List ItemT
  first : Option String
  last : Option String
  baseRef : Ref
  disclosureRef : Option Element
  autoFocusOnShow : Bool
deriving DecidableEq, Repr

/-- The parent menu store read from `MenuContext` (identified abstractly). -/
structure ParentMenuStore where
  sid : Nat
deriving DecidableEq, Repr

/-- The menu bar store read from `MenuBarContext` (identified abstractly). -/
structure MenuBarStore where
  sid : Nat
deriving DecidableEq, Repr

/-- A `backdrop` option value: a boolean or a component (abstract id). -/
abbrev Backdrop := Sum Bool Nat

/-- The props object passed to `useMenu`: the options it destructures
(`state`, `hideOnEscape`, `autoFocusOnShow`, `hideOnHoverOutside`) and the
rest props it forwards (`onKeyDown`, `modal`, `backdrop`, other DOM props).
`none` stands for an absent (undefined) prop. -/
structure MenuProps where
  state : MenuState
  hideOnEscape : Option BooleanOrCallback
  autoFocusOnShow : Option Bool
  hideOnHoverOutside : Option (Sum Bool (HoverEvent → Bool))
  onKeyDown : Option (KeyboardEvent → KeyboardEvent)
  modal : Option Bool
  backdrop : Option Backdrop
  dom : List (String × String)

/-- The props object `useMenu` passes to `useMenuList` (`{ state, ...props }`
with the merged `onKeyDown` installed). -/
structure MenuListInput where
  state : MenuState
  onKeyDown : KeyboardEvent → KeyboardEvent × List Effect
  modal : Option Bool
  backdrop : Option Backdrop
  dom : List (String × String)

/-- The props object returned by `useMenuList`: the handlers and DOM
attributes it computed, with unknown options such as `modal` and `backdrop`
carried through as fields. -/
structure MidProps where
  onKeyDown : KeyboardEvent → KeyboardEvent × List Effect
  modal : Option Bool
  backdrop : Option Backdrop
  dom : List (String × String)

/-- The props object `useMenu` passes to `useHovercard`: the explicit options
of the call site (which override the spread `...props` for
`hideOnHoverOutside`, `modal`, `backdrop` and `hideOnEscape`) together with
the spread `useMenuList` output. -/
structure HovercardInput where
  state : MenuState
  autoFocusOnShow : Bool
  initialFocusRef : Option Ref
  props : MidProps
  hideOnHoverOutside : HoverEvent → Bool × List Effect
  modal : Option Bool
  backdrop : Option Backdrop
  hideOnEscape : BooleanOrCallback

/-- A host-framework exception, kept abstract. -/
abbrev HostError := String

/-- Modelled from the spec: `useEventCallback` lives in
`ariakit-utils/hooks`, not under `src/`; it returns a stable callback that
invokes the latest caller-supplied handler, or does nothing when the handler
is undefined. -/
def useEventCallback (f : Option (KeyboardEvent → KeyboardEvent)) :
    KeyboardEvent → KeyboardEvent :=
  fun e =>
    match f with
    | some g => g e
    | none => e

/-- Modelled from the spec: `useBooleanEventCallback` lives in
`ariakit-utils/hooks`, not under `src/`; it turns a `BooleanOrCallback` into
a callback returning the boolean or the function's result on the event. -/
def useBooleanEventCallback (b : BooleanOrCallback) : KeyboardEvent → Bool :=
  fun e =>
    match b with
    | Sum.inl v => v
    | Sum.inr g => g e

/-- Embeds `const hasParentMenu = !!parentMenu` (menu.ts line 40). -/
def hasParentMenu (parentMenu : Option ParentMenuStore) : Bool :=
  parentMenu.isSome

/-- Embeds `const parentIsMenuBar = !!parentMenuBar && !hasParentMenu`
(menu.ts line 41). -/
def parentIsMenuBar (parentMenu : Option ParentMenuStore)
    (parentMenuBar : Option MenuBarStore) : Bool :=
  parentMenuBar.isSome && !hasParentMenu parentMenu

/-- Embeds the `onKeyDown` callback of `useMenu` (menu.ts lines 46-61): call
the caller handler, stop if `defaultPrevented`; on `Escape`, consult
`hideOnEscapeProp`, call `stopPropagation()` only when there is no parent
menu, and hide. -/
def menuOnKeyDown (onKeyDownProp : KeyboardEvent → KeyboardEvent)
    (hideOnEscapeProp : KeyboardEvent → Bool) (hasParent : Bool)
    (event : KeyboardEvent) : KeyboardEvent × List Effect :=
  let ev := onKeyDownProp event
  if ev.defaultPrevented then (ev, [])
  else if ev.key = "Escape" then
    if !hideOnEscapeProp ev then (ev, [])
    else if !hasParent then (ev.stopPropagation, [Effect.hide])
    else (ev, [Effect.hide])
  else (ev, [])

/-- Embeds the `initialFocusRef` memo of `useMenu` (menu.ts lines 73-100).
`none` is JavaScript `undefined`; an id equal to `""` is falsy, like
`undefined`, under the `if (id)` test. -/
def initialFocusRef (state : MenuState) : Option Ref :=
  match state.initialFocus with
  | InitialFocus.first =>
    match state.first with
    | some id =>
      if id.isEmpty then some state.baseRef
      else (state.items.find? (fun item => item.id == some id)).map ItemT.ref
    | none => some state.baseRef
  | InitialFocus.last =>
    match state.last with
    | some id =>
      if id.isEmpty then some state.baseRef
      else (state.items.find? (fun item => item.id == some id)).map ItemT.ref
    | none => some state.baseRef
  | InitialFocus.container => some state.baseRef

/-- Embeds the `hideOnHoverOutside` arrow function `useMenu` passes to
`useHovercard` (menu.ts lines 107-121). -/
def menuHideOnHoverOutside
    (hideOnHoverOutside : Option (Sum Bool (HoverEvent → Bool)))
    (hasParent parentBar : Bool) (disclosure : Option Element)
    (event : HoverEvent) : Bool × List Effect :=
  match hideOnHoverOutside with
  | some (Sum.inr f) => (f event, [])
  | some (Sum.inl b) => (b, [])
  | none =>
    if hasParent then (true, [Effect.setActiveId none])
    else if !parentBar then (false, [])
    else
      match disclosure with
      | none => (true, [])
      | some d => if hasFocusWithin d then (false, []) else (true, [])

/-- The argument of the `useMenuList` call (menu.ts lines 63-71): the caller
props with the merged `onKeyDown` installed, plus `state`. -/
def menuListInput (p : MenuProps) (parentMenu : Option ParentMenuStore) :
    MenuListInput :=
  { state := p.state
    onKeyDown :=
      menuOnKeyDown (useEventCallback p.onKeyDown)
        (useBooleanEventCallback (p.hideOnEscape.getD (Sum.inl true)))
        (hasParentMenu parentMenu)
    modal := p.modal
    backdrop := p.backdrop
    dom := p.dom }

/-- The argument of the `useHovercard` call (menu.ts lines 102-130), built
from the `useMenuList` output `mid` (the `props` variable at that point). -/
def menuHovercardInput (p : MenuProps) (mid : MidProps)
    (parentMenu : Option ParentMenuStore) (parentMenuBar : Option MenuBarStore) :
    HovercardInput :=
  { state := p.state
    autoFocusOnShow := p.state.autoFocusOnShow && p.autoFocusOnShow.getD true
    initialFocusRef := initialFocusRef p.state
    props := mid
    hideOnHoverOutside :=
      menuHideOnHoverOutside p.hideOnHoverOutside (hasParentMenu parentMenu)
        (parentIsMenuBar parentMenu parentMenuBar) p.state.disclosureRef
    modal := if hasParentMenu parentMenu then some false else mid.modal
    backdrop :=
      if hasParentMenu parentMenu then some (Sum.inl false) else mid.backdrop
    hideOnEscape :=
      if hasParentMenu parentMenu then Sum.inl false
      else p.hideOnEscape.getD (Sum.inl true) }

/-- Embeds `useMenu` (menu.ts lines 30-134), parametric in the delegated
hooks `useMenuList` and `useHovercard`, whose sources are not under `src/`.
Each delegated hook may fail with a host exception and reports the store
effects its evaluation performed; `useMenu` returns the `useHovercard`
output together with all render-time effects in call order. -/
def useMenu {β : Type}
    (uMenuList : MenuListInput → Except HostError (MidProps × List Effect))
    (uHovercard : HovercardInput → Except HostError (β × List Effect))
    (p : MenuProps) (parentMenu : Option ParentMenuStore)
    (parentMenuBar : Option MenuBarStore) :
    Except HostError (β × List Effect) :=
  match uMenuList (menuListInput p parentMenu) with
  | Except.error e => Except.error e
  | Except.ok (mid, eff1) =>
    match uHovercard (menuHovercardInput p mid parentMenu parentMenuBar) with
    | Except.error e => Except.error e
    | Except.ok (out, eff2) => Except.ok (out, eff1 ++ eff2)

/-- A rendered framework element: a tag and the props applied to it. -/
inductive ReactElement (β : Type) where
  | element (tag : String) (props : β)

/-- Modelled from the spec: `createElement` lives in `ariakit-utils/system`,
not under `src/`; per the spec, render components apply the computed props to
a markup element. -/
def createElement {β : Type} (tag : String) (props : β) : ReactElement β :=
  ReactElement.element tag props

/-- Embeds the `Menu` component (menu.ts lines 149-152):
`htmlProps = useMenu(props); return createElement("div", htmlProps)`. -/
def Menu {β : Type}
    (uMenuList : MenuListInput → Except HostError (MidProps × List Effect))
    (uHovercard : HovercardInput → Except HostError (β × List Effect))
    (p : MenuProps) (parentMenu : Option ParentMenuStore)
    (parentMenuBar : Option MenuBarStore) :
    Except HostError (ReactElement β × List Effect) :=
  match useMenu uMenuList uHovercard p parentMenu parentMenuBar with
  | Except.error e => Except.error e
  | Except.ok (htmlProps, eff) => Except.ok (createElement "div" htmlProps, eff)

/-! ## Concrete inputs used by the witness theorems -/

/-- A concrete keyboard event: `Escape`, nothing prevented yet. -/
def wKeyEvent : KeyboardEvent :=
  { key := "Escape", defaultPrevented := false, stopPropagationCalls := 0 }

/-- A concrete caller `onKeyDown` handler that prevents default. -/
def wCallerKeyDown : KeyboardEvent → KeyboardEvent :=
  fun e => { e with defaultPrevented := true }

/-- A concrete menu state. -/
def wState : MenuState :=
  { initialFocus := InitialFocus.container, items := [], first := none,
    last := none, baseRef := 0, disclosureRef := none, autoFocusOnShow := true }

/-- Concrete caller props with a caller `onKeyDown` handler installed. -/
def wProps : MenuProps :=
  { state := wState, hideOnEscape := none, autoFocusOnShow := none,
    hideOnHoverOutside := none, onKeyDown := some wCallerKeyDown,
    modal := none, backdrop := none, dom := [] }

/-- Concrete caller props with no caller `onKeyDown` handler. -/
def wPropsNoKd : MenuProps :=
  { state := wState, hideOnEscape := none, autoFocusOnShow := none,
    hideOnHoverOutside := none, onKeyDown := none,
    modal := none, backdrop := none, dom := [] }

/-- A concrete `useMenuList` output. -/
def wMid : MidProps :=
  { onKeyDown := fun e => (e, []), modal := none, backdrop := none, dom := [] }

/-- A concrete, always-succeeding, effect-free `useMenuList`. -/
def wML : MenuListInput → Except HostError (MidProps × List Effect) :=
  fun _ => Except.ok (wMid, [])

/-- A concrete, always-succeeding, effect-free `useHovercard`. -/
def wHC : HovercardInput → Except HostError (Nat × List Effect) :=
  fun _ => Except.ok (7, [])

/-! ## Claims -/

/-- C1: when the caller-supplied `onKeyDown` is defined, the merged keydown
handler installed by `useMenu` invokes it first, and if the caller handler
left `event.defaultPrevented` true, the internal Escape handling
(`hideOnEscape` check, `stopPropagation`, `state.hide`) is skipped entirely:
the result is exactly the caller handler's event with no store effect. -/
theorem useMenu_onKeyDown_callerPreventDefault_skips_internal
    (p : MenuProps) (pm : Option ParentMenuStore)
    (f : KeyboardEvent → KeyboardEvent) (e : KeyboardEvent)
    (hf : p.onKeyDown = some f) (hdp : (f e).defaultPrevented = true) :
    (menuListInput p pm).onKeyDown e = (f e, []) := by
  simp [menuListInput, menuOnKeyDown, useEventCallback, hf, hdp]

/-- C1 witness: concrete instance of the theorem. -/
theorem useMenu_onKeyDown_callerPreventDefault_skips_internal_witness :
    (menuListInput wProps none).onKeyDown wKeyEvent = (wCallerKeyDown wKeyEvent, []) :=
  useMenu_onKeyDown_callerPreventDefault_skips_internal wProps none
    wCallerKeyDown wKeyEvent rfl rfl

/-- C2: `useMenu` delegates in a fixed order: the caller props with the
merged `onKeyDown` installed are passed to `useMenuList`; that result is
passed to `useHovercard`; the `useHovercard` output (with the accumulated
render effects) is what `useMenu` returns, and either hook's failure is
propagated unchanged. -/
theorem useMenu_delegates_in_order {β : Type}
    (uML : MenuListInput → Except HostError (MidProps × List Effect))
    (uHC : HovercardInput → Except HostError (β × List Effect))
    (p : MenuProps) (pm : Option ParentMenuStore) (pb : Option MenuBarStore) :
    (∀ e, uML (menuListInput p pm) = Except.error e →
        useMenu uML uHC p pm pb = Except.error e)
    ∧ (∀ mid eff1, uML (menuListInput p pm) = Except.ok (mid, eff1) →
        (∀ e, uHC (menuHovercardInput p mid pm pb) = Except.error e →
            useMenu uML uHC p pm pb = Except.error e)
        ∧ (∀ out eff2, uHC (menuHovercardInput p mid pm pb) = Except.ok (out, eff2) →
            useMenu uML uHC p pm pb = Except.ok (out, eff1 ++ eff2))) := by
  refine ⟨fun e he => ?_, fun mid eff1 hok =>
    ⟨fun e he => ?_, fun out eff2 hok2 => ?_⟩⟩
  · unfold useMenu
    rw [he]
  · unfold useMenu
    simp only [hok, he]
  · unfold useMenu
    simp only [hok, hok2]

/-- C2 witness: concrete instance of the theorem. -/
theorem useMenu_delegates_in_order_witness :
    useMenu wML wHC wProps none none = Except.ok (7, []) :=
  ((useMenu_delegates_in_order wML wHC wProps none none).2 wMid [] rfl).2 7 [] rfl

/-- C3: on an Escape key event that the caller handler has not
default-prevented, with `hideOnEscape` (default `true`) evaluating to true,
the merged handler emits `state.hide()`, and calls `stopPropagation()` on
the event exactly when there is no parent menu. -/
theorem useMenu_onKeyDown_escape_hides
    (p : MenuProps) (pm : Option ParentMenuStore) (e : KeyboardEvent)
    (hdp : (useEventCallback p.onKeyDown e).defaultPrevented = false)
    (hk : (useEventCallback p.onKeyDown e).key = "Escape")
    (hhe : useBooleanEventCallback (p.hideOnEscape.getD (Sum.inl true))
        (useEventCallback p.onKeyDown e) = true) :
    (menuListInput p pm).onKeyDown e =
      (if hasParentMenu pm then useEventCallback p.onKeyDown e
       else (useEventCallback p.onKeyDown e).stopPropagation,
       [Effect.hide]) := by
  cases h : hasParentMenu pm <;>
    simp [menuListInput, menuOnKeyDown, hdp, hk, hhe, h]

/-- C3 witness: concrete instance of the theorem (no parent menu; the event
is stop-propagated and the hide effect emitted). -/
theorem useMenu_onKeyDown_escape_hides_witness :
    (menuListInput wPropsNoKd none).onKeyDown wKeyEvent =
      (wKeyEvent.stopPropagation, [Effect.hide]) :=
  useMenu_onKeyDown_escape_hides wPropsNoKd none wKeyEvent rfl rfl rfl

/-- C4: with a parent menu present, `useMenu` passes `modal = false`,
`backdrop = false` and `hideOnEscape = false` to `useHovercard` regardless
of the caller values; with no parent menu, the caller's `modal` and
`backdrop` values (carried through the `useMenuList` output) are passed
through unchanged. -/
theorem submenu_forces_nonmodal
    (p : MenuProps) (mid : MidProps) (pm : Option ParentMenuStore)
    (pb : Option MenuBarStore)
    (hm : mid.modal = p.modal) (hb : mid.backdrop = p.backdrop) :
    (hasParentMenu pm = true →
      (menuHovercardInput p mid pm pb).modal = some false
      ∧ (menuHovercardInput p mid pm pb).backdrop = some (Sum.inl false)
      ∧ (menuHovercardInput p mid pm pb).hideOnEscape = Sum.inl false)
    ∧ (hasParentMenu pm = false →
      (menuHovercardInput p mid pm pb).modal = p.modal
      ∧ (menuHovercardInput p mid pm pb).backdrop = p.backdrop) := by
  constructor <;> intro h <;> simp [menuHovercardInput, h, hm, hb]

/-- C4 witness: concrete instance of the theorem (submenu case). -/
theorem submenu_forces_nonmodal_witness :
    (menuHovercardInput wProps wMid (some ⟨0⟩) none).modal = some false
    ∧ (menuHovercardInput wProps wMid (some ⟨0⟩) none).backdrop = some (Sum.inl false)
    ∧ (menuHovercardInput wProps wMid (some ⟨0⟩) none).hideOnEscape = Sum.inl false :=
  (submenu_forces_nonmodal wProps wMid (some ⟨0⟩) none rfl rfl).1 rfl

/-- C5: `useMenu` branches over exactly the two flags `hasParentMenu`
(present parent menu context) and `parentIsMenuBar` (menu bar context and no
parent menu context); the two are never both true. -/
theorem menu_mode_flags (pm : Option ParentMenuStore) (pb : Option MenuBarStore) :
    (hasParentMenu pm = true ↔ ∃ s, pm = some s)
    ∧ (parentIsMenuBar pm pb = true ↔ (∃ s, pb = some s) ∧ pm = none)
    ∧ (hasParentMenu pm && parentIsMenuBar pm pb) = false := by
  cases pm <;> cases pb <;> simp [hasParentMenu, parentIsMenuBar]

/-- C5 witness: concrete instance of the theorem. -/
theorem menu_mode_flags_witness :
    (hasParentMenu (some ⟨0⟩) && parentIsMenuBar (some ⟨0⟩) (some ⟨1⟩)) = false :=
  (menu_mode_flags (some ⟨0⟩) (some ⟨1⟩)).2.2

/-- C6: `useMenu` raises no library-defined error of its own: when the
delegated hooks succeed, `useMenu` succeeds, and any error it surfaces is
exactly an error produced by one of the delegated hooks. -/
theorem useMenu_raises_no_own_error {β : Type}
    (uML : MenuListInput → Except HostError (MidProps × List Effect))
    (uHC : HovercardInput → Except HostError (β × List Effect))
    (p : MenuProps) (pm : Option ParentMenuStore) (pb : Option MenuBarStore) :
    ((∀ i, ∃ r, uML i = Except.ok r) → (∀ j, ∃ s, uHC j = Except.ok s) →
        ∃ t, useMenu uML uHC p pm pb = Except.ok t)
    ∧ (∀ e, useMenu uML uHC p pm pb = Except.error e →
        (∃ i, uML i = Except.error e) ∨ (∃ j, uHC j = Except.error e)) := by
  constructor
  · intro h1 h2
    obtain ⟨⟨mid, eff1⟩, hml⟩ := h1 (menuListInput p pm)
    obtain ⟨⟨out, eff2⟩, hhc⟩ := h2 (menuHovercardInput p mid pm pb)
    refine ⟨(out, eff1 ++ eff2), ?_⟩
    unfold useMenu
    simp only [hml, hhc]
  · intro e he
    unfold useMenu at he
    cases hml : uML (menuListInput p pm) with
    | error e1 =>
      rw [hml] at he
      injection he with h1
      subst h1
      exact Or.inl ⟨_, hml⟩
    | ok r =>
      obtain ⟨mid, eff1⟩ := r
      rw [hml] at he
      simp only at he
      cases hhc : uHC (menuHovercardInput p mid pm pb) with
      | error e2 =>
        rw [hhc] at he
        injection he with h2
        subst h2
        exact Or.inr ⟨_, hhc⟩
      | ok s =>
        obtain ⟨out, eff2⟩ := s
        rw [hhc] at he
        exact absurd he (by simp)

/-- C6 witness: concrete instance of the theorem. -/
theorem useMenu_raises_no_own_error_witness :
    ∃ t, useMenu wML wHC wProps none none = Except.ok t :=
  (useMenu_raises_no_own_error wML wHC wProps none none).1
    (fun _ => ⟨(wMid, []), rfl⟩) (fun _ => ⟨(7, []), rfl⟩)

/-- C7: the `Menu` component renders exactly `createElement("div", htmlProps)`
where `htmlProps` is the `useMenu` output for the given props, with no other
transformation in between. -/
theorem Menu_renders_div_with_hook_props {β : Type}
    (uML : MenuListInput → Except HostError (MidProps × List Effect))
    (uHC : HovercardInput → Except HostError (β × List Effect))
    (p : MenuProps) (pm : Option ParentMenuStore) (pb : Option MenuBarStore)
    (html : β) (eff : List Effect)
    (h : useMenu uML uHC p pm pb = Except.ok (html, eff)) :
    Menu uML uHC p pm pb = Except.ok (createElement "div" html, eff) := by
  unfold Menu
  simp only [h]

/-- C7 witness: concrete instance of the theorem. -/
theorem Menu_renders_div_with_hook_props_witness :
    Menu wML wHC wProps none none = Except.ok (createElement "div" 7, []) :=
  Menu_renders_div_with_hook_props wML wHC wProps none none 7 [] rfl

/-- C8: the `hideOnHoverOutside` callback passed to `useHovercard` resolves
in a fixed precedence order: caller function, then caller non-null value,
then parent menu (`setActiveId(null)` and true), then false when the parent
is not a menu bar, else true unless the disclosure element exists and has
focus within it (true also when the disclosure element is absent). -/
theorem menuHideOnHoverOutside_precedence
    (ho : Option (Sum Bool (HoverEvent → Bool))) (hasP isBar : Bool)
    (d : Option Element) (ev : HoverEvent) :
    (∀ f, ho = some (Sum.inr f) →
        menuHideOnHoverOutside ho hasP isBar d ev = (f ev, []))
    ∧ (∀ b, ho = some (Sum.inl b) →
        menuHideOnHoverOutside ho hasP isBar d ev = (b, []))
    ∧ (ho = none → hasP = true →
        menuHideOnHoverOutside ho hasP isBar d ev = (true, [Effect.setActiveId none]))
    ∧ (ho = none → hasP = false → isBar = false →
        menuHideOnHoverOutside ho hasP isBar d ev = (false, []))
    ∧ (ho = none → hasP = false → isBar = true → d = none →
        menuHideOnHoverOutside ho hasP isBar d ev = (true, []))
    ∧ (∀ el, ho = none → hasP = false → isBar = true → d = some el →
        menuHideOnHoverOutside ho hasP isBar d ev =
          (if hasFocusWithin el then false else true, [])) := by
  refine ⟨?_, ?_, ?_, ?_, ?_, ?_⟩ <;>
    intros <;> subst_vars <;>
      first
      | rfl
      | (cases h : hasFocusWithin _ <;> simp [menuHideOnHoverOutside, h])

/-- C8 witness: concrete instance of the theorem (parent menu present). -/
theorem menuHideOnHoverOutside_precedence_witness :
    menuHideOnHoverOutside none true false none ⟨0⟩ =
      (true, [Effect.setActiveId none]) :=
  (menuHideOnHoverOutside_precedence none true false none ⟨0⟩).2.2.1 rfl rfl

/-- C9: evaluating `useMenu` itself mutates no store: when the delegated
hooks report no render effects, `useMenu` reports none either, and the only
effects the installed handlers can ever emit are `state.hide()` from the
Escape keydown handler and `parentMenu.setActiveId(null)` from the
`hideOnHoverOutside` callback. -/
theorem useMenu_render_mutates_no_store {β : Type}
    (uML : MenuListInput → Except HostError (MidProps × List Effect))
    (uHC : HovercardInput → Except HostError (β × List Effect))
    (p : MenuProps) (pm : Option ParentMenuStore) (pb : Option MenuBarStore)
    (mid : MidProps) (out : β)
    (hml : uML (menuListInput p pm) = Except.ok (mid, []))
    (hhc : uHC (menuHovercardInput p mid pm pb) = Except.ok (out, [])) :
    useMenu uML uHC p pm pb = Except.ok (out, [])
    ∧ (∀ f h hp ev, (menuOnKeyDown f h hp ev).2 = []
        ∨ (menuOnKeyDown f h hp ev).2 = [Effect.hide])
    ∧ (∀ ho hp ib d ev, (menuHideOnHoverOutside ho hp ib d ev).2 = []
        ∨ (menuHideOnHoverOutside ho hp ib d ev).2 = [Effect.setActiveId none]) := by
  refine ⟨?_, ?_, ?_⟩
  · unfold useMenu
    simp only [hml, hhc, List.nil_append]
  · intro f h hp ev
    simp only [menuOnKeyDown]
    split
    · exact Or.inl rfl
    · split
      · split
        · exact Or.inl rfl
        · split
          · exact Or.inr rfl
          · exact Or.inr rfl
      · exact Or.inl rfl
  · intro ho hp ib d ev
    cases ho with
    | some v =>
      cases v with
      | inl b => exact Or.inl rfl
      | inr f => exact Or.inl rfl
    | none =>
      simp only [menuHideOnHoverOutside]
      split
      · exact Or.inr rfl
      · split
        · exact Or.inl rfl
        · cases d with
          | none => exact Or.inl rfl
          | some el =>
            cases h : hasFocusWithin el <;> simp [h]

/-- C9 witness: concrete instance of the theorem. -/
theorem useMenu_render_mutates_no_store_witness :
    useMenu wML wHC wProps (some ⟨1⟩) none = Except.ok (7, []) :=
  (useMenu_render_mutates_no_store wML wHC wProps (some ⟨1⟩) none wMid 7 rfl rfl).1

/-- Concrete menu state on which `state.first()` yields an id that matches
no item: `initialFocusRef` then evaluates to `undefined`, not
`state.baseRef`. -/
def cexState : MenuState :=
  { initialFocus := InitialFocus.first, items := [], first := some "a",
    last := none, baseRef := 7, disclosureRef := none, autoFocusOnShow := true }

/-- C10 counterexample: with `initialFocus = "first"`, a truthy id from
`state.first()`, and no item carrying that id, the code returns
`state.items.find(...)?.ref`, which is `undefined` — not `state.baseRef` as
the claim states (witnessed by the `isSome` mismatch with `some baseRef`). -/
theorem initialFocusRef_missing_item_counterexample :
    cexState.initialFocus = InitialFocus.first
    ∧ cexState.first = some "a"
    ∧ cexState.items.find? (fun item => item.id == some "a") = none
    ∧ initialFocusRef cexState = none
    ∧ (initialFocusRef cexState).isSome = false
    ∧ (some cexState.baseRef).isSome = true := by
  decide

/-- C10 (amended): `useMenu` is deterministic — equal props, states and
contexts yield equal outputs — and `initialFocusRef` selects the ref of the
item matching `state.first()` / `state.last()` for `"first"` / `"last"`
(yielding `undefined` when no item matches a truthy id), and `state.baseRef`
for `"container"` or when the id is absent or empty. -/
theorem useMenu_deterministic {β : Type}
    (uML : MenuListInput → Except HostError (MidProps × List Effect))
    (uHC : HovercardInput → Except HostError (β × List Effect))
    (p q : MenuProps) (pm pm2 : Option ParentMenuStore)
    (pb pb2 : Option MenuBarStore)
    (hp : p = q) (hpm : pm = pm2) (hpb : pb = pb2) :
    useMenu uML uHC p pm pb = useMenu uML uHC q pm2 pb2
    ∧ initialFocusRef p.state =
      (match p.state.initialFocus with
       | InitialFocus.first =>
         match p.state.first with
         | some id =>
           if id.isEmpty then some p.state.baseRef
           else (p.state.items.find? (fun item => item.id == some id)).map ItemT.ref
         | none => some p.state.baseRef
       | InitialFocus.last =>
         match p.state.last with
         | some id =>
           if id.isEmpty then some p.state.baseRef
           else (p.state.items.find? (fun item => item.id == some id)).map ItemT.ref
         | none => some p.state.baseRef
       | InitialFocus.container => some p.state.baseRef) := by
  subst hp
  subst hpm
  subst hpb
  refine ⟨rfl, ?_⟩
  cases hIF : p.state.initialFocus <;>
    cases hF : p.state.first <;>
      cases hL : p.state.last <;>
        simp [initialFocusRef, hIF, hF, hL]

/-- C10 witness: concrete instance of the theorem. -/
theorem useMenu_deterministic_witness :
    useMenu wML wHC wProps none none = useMenu wML wHC wProps none none :=
  (useMenu_deterministic wML wHC wProps wProps none none none none
    rfl rfl rfl).1

end Ariakit
